import Mathlib

/-!
Verification development for the blood-volume/pressure RDF annotation
pipeline in create_annotations.py.  The pipeline is embedded shallowly:
URIs are strings, the RDF graph is a list of triples with set semantics
for insertion, the process-wide local-identifier counter is threaded
explicitly, and every print diagnostic is modelled as an element of an
explicit list of messages.
-/

namespace CreateAnnotations

/-- Namespace OMEXlib from the source: prepends the omex-library base. -/
def OMEXlib (s : String) : String := "http://omex-library.org/" ++ s

/-- Namespace LOCAL from the source. -/
def LOCAL (s : String) : String := "http://omex-library.org/annotations.ttl#" ++ s

/-- Namespace BQBIOL from the source. -/
def BQBIOL (s : String) : String := "http://biomodels.net/biology-qualifiers/" ++ s

/-- Namespace UBERON from the source. -/
def UBERON (s : String) : String := "http://purl.obolibrary.org/obo/UBERON_" ++ s

/-- Namespace OPB from the source. -/
def OPB (s : String) : String := "http://bhi.washington.edu/OPB#" ++ s

/-- VOLUME_URI from the source (OPB fluid volume term). -/
def VOLUME_URI : String := OPB ("OPB_00154")

/-- PRESSURE_URI from the source (OPB fluid pressure term). -/
def PRESSURE_URI : String := OPB ("OPB_00509")

/-- BLOOD_URI from the source (UBERON blood term). -/
def BLOOD_URI : String := UBERON ("0000178")

/-- Decimal digit character, as Python renders one digit of an int. -/
def digitChar (d : Nat) : Char := Char.ofNat (48 + d)

/-- Decimal digits of a number, most significant first, with explicit
fuel so that the definition is structural and kernel-reducible.  With
fuel at least the number itself this is exactly the decimal rendering a
Python f-string produces for a positive int. -/
def natChars : Nat → Nat → List Char
  | 0, _ => []
  | fuel + 1, n => if n = 0 then [] else natChars fuel (n / 10) ++ [digitChar (n % 10)]

/-- Decimal rendering of a natural number, as Python str of an int. -/
def natToStr (n : Nat) : String :=
  if n = 0 then "0" else String.mk (natChars n n)

/-- Models _get_local_id from the source: increments the process-wide
counter (threaded explicitly here) and returns the relative URI of the
fresh local node together with the new counter value. -/
def _get_local_id (ctr : Nat) : Nat × String :=
  (ctr + 1, "local-node-" ++ natToStr (ctr + 1))

/-- An RDF triple; rdflib URIRef values are embedded as strings. -/
structure Triple where
  subj : String
  pred : String
  obj : String
deriving DecidableEq

/-- The rdflib Graph is embedded as a list of distinct triples in
insertion order; Graph.add has set semantics. -/
abbrev RDFGraph := List Triple

/-- Models rdflib Graph.add: inserts the triple unless it is present. -/
def addTriple (g : RDFGraph) (t : Triple) : RDFGraph :=
  if t ∈ g then g else g ++ [t]

/-- Models Python str.endswith on the attribute values. -/
def endswith (value : String) (suffix : String) : Bool :=
  suffix.data.isSuffixOf value.data

/-- Characters strictly before the first dot. -/
def takeUntilDot : List Char → List Char
  | [] => []
  | c :: cs => if c = '.' then [] else c :: takeUntilDot cs

/-- Models Python model_id.split(".")[0]: the text before the first dot
(the whole string when it has no dot). -/
def split_dot_head (s : String) : String := String.mk (takeUntilDot s.data)

/-- Result of get_model_ids: the three classification buckets plus the
Unknown ID diagnostics printed for values matching no known suffix. -/
structure ModelIds where
  volume_ids : List String
  pressure_ids : List String
  flow_ids : List String
  unknown_msgs : List String
deriving DecidableEq

/-- Models the classification loop of get_model_ids over the attribute
values already extracted from the model document (the XML attribute
scan itself is an external input producer per the spec). -/
def get_model_ids (attributes : List String) : ModelIds :=
  match attributes with
  | [] => { volume_ids := [], pressure_ids := [], flow_ids := [], unknown_msgs := [] }
  | value :: rest =>
    let r := get_model_ids rest
    if endswith value (".blood.volume") then
      { r with volume_ids := value :: r.volume_ids }
    else if endswith value (".blood.pressure") then
      { r with pressure_ids := value :: r.pressure_ids }
    else if endswith value (".blood.flow") then
      { r with flow_ids := value :: r.flow_ids }
    else
      { r with unknown_msgs := ("Unknown ID: " ++ value) :: r.unknown_msgs }

/-- The fixed cavity table of map_to_uberon_cavity. -/
def cavity_map : List (String × String) :=
  [("lv", "0016514"),
   ("rv", "0016509"),
   ("la", "0016513"),
   ("ra", "0016522"),
   ("pa", "0002012"),
   ("lung", "0000102"),
   ("pulm-vein", "0002016"),
   ("brain", "0008998"),
   ("brain-vein", "2005031"),
   ("aa", "0001496"),
   ("celiac", "0001640"),
   ("sup-mes", "0001182"),
   ("stomach", "0000945"),
   ("spleen", "0036301"),
   ("pancreas", "0001264"),
   ("intestine", "0000160"),
   ("colon", "0001155"),
   ("portal-vein", "0002017"),
   ("liver", "0006877")]

/-- Models map_to_uberon_cavity: table hit returns the UBERON code, a
miss returns the generic anatomical-entity fallback and the printed
warning (second component is the list of warnings emitted). -/
def map_to_uberon_cavity (cavity_abbr : String) : String × List String :=
  match cavity_map.lookup cavity_abbr with
  | some code => (UBERON code, [])
  | none => (UBERON ("0001062"), ["Unknown cavity abbreviation: " ++ cavity_abbr])

/-- The predicate of the SPARQL query in
create_local_blood_cavity_definition with its initBindings: any triple
whose predicate is the isPartOf qualifier and whose object is the
target cavity. -/
def matchesPartOf (cavity_uri : String) (t : Triple) : Bool :=
  t.pred == BQBIOL ("isPartOf") && t.obj == cavity_uri

/-- State returned by the deduplicator: the (possibly extended) graph,
the counter after the call, and the local entity chosen or minted. -/
structure DedupResult where
  graph : RDFGraph
  ctr : Nat
  node : String
deriving DecidableEq

/-- Models create_local_blood_cavity_definition: query the graph for a
subject with an isPartOf edge to the cavity; return the first such
subject unchanged, otherwise mint a fresh local node and add its two
triples. -/
def create_local_blood_cavity_definition (rdf_graph : RDFGraph) (ctr : Nat)
    (cavity_uri : String) : DedupResult :=
  match rdf_graph.find? (matchesPartOf cavity_uri) with
  | some row => { graph := rdf_graph, ctr := ctr, node := row.subj }
  | none =>
    let fresh := _get_local_id ctr
    let local_node := LOCAL fresh.2
    { graph := addTriple
        (addTriple rdf_graph { subj := local_node, pred := BQBIOL ("is"), obj := BLOOD_URI })
        { subj := local_node, pred := BQBIOL ("isPartOf"), obj := cavity_uri },
      ctr := fresh.1,
      node := local_node }

/-- Pipeline state threaded through the annotation calls: the shared
graph, the process-wide counter, and the cavity warnings printed. -/
structure AnnotState where
  graph : RDFGraph
  ctr : Nat
  warnings : List String
deriving DecidableEq

/-- Models create_blood_volume_annotation. -/
def create_blood_volume_annotation (st : AnnotState) (model : String)
    (model_id : String) : AnnotState :=
  let model_uri := OMEXlib (model ++ "#" ++ model_id)
  let cavity := split_dot_head model_id
  let mapped := map_to_uberon_cavity cavity
  let d := create_local_blood_cavity_definition st.graph st.ctr mapped.1
  { graph := addTriple
      (addTriple d.graph { subj := model_uri, pred := BQBIOL ("isPropertyOf"), obj := d.node })
      { subj := model_uri, pred := BQBIOL ("isVersionOf"), obj := VOLUME_URI },
    ctr := d.ctr,
    warnings := st.warnings ++ mapped.2 }

/-- Models create_blood_pressure_annotation. -/
def create_blood_pressure_annotation (st : AnnotState) (model : String)
    (model_id : String) : AnnotState :=
  let model_uri := OMEXlib (model ++ "#" ++ model_id)
  let cavity := split_dot_head model_id
  let mapped := map_to_uberon_cavity cavity
  let d := create_local_blood_cavity_definition st.graph st.ctr mapped.1
  { graph := addTriple
      (addTriple d.graph { subj := model_uri, pred := BQBIOL ("isPropertyOf"), obj := d.node })
      { subj := model_uri, pred := BQBIOL ("isVersionOf"), obj := PRESSURE_URI },
    ctr := d.ctr,
    warnings := st.warnings ++ mapped.2 }

/-- The fixed model path used by the driver. -/
def cellml_file : String := "models/cvs-model.cellml"

/-- Models the driver loop of the script: classify the extracted
attribute values, then annotate every volume ID and every pressure ID
in order, over an initially empty graph, with the given initial value
of the process-wide counter. -/
def run_annotations (attributes : List String) (ctr : Nat) : AnnotState :=
  let model_ids := get_model_ids attributes
  let st1 := model_ids.volume_ids.foldl
    (fun st v => create_blood_volume_annotation st cellml_file v)
    { graph := [], ctr := ctr, warnings := [] }
  model_ids.pressure_ids.foldl
    (fun st p => create_blood_pressure_annotation st cellml_file p) st1

/-- A single annotation request: a volume or a pressure model ID. -/
inductive AnnOp where
  | vol : String → AnnOp
  | pres : String → AnnOp
deriving DecidableEq

/-- Apply one annotation request to the pipeline state. -/
def applyOp (model : String) (st : AnnotState) : AnnOp → AnnotState
  | AnnOp.vol mid => create_blood_volume_annotation st model mid
  | AnnOp.pres mid => create_blood_pressure_annotation st model mid

/-- Any single run of annotation requests from a given state. -/
def runOps (model : String) (st : AnnotState) (ops : List AnnOp) : AnnotState :=
  ops.foldl (applyOp model) st

/-- Graph invariant behind deduplication: among isPartOf triples, any
two with the same object (anatomical location) share their subject. -/
def InvG (g : RDFGraph) : Prop :=
  ∀ t1 ∈ g, ∀ t2 ∈ g,
    t1.pred = BQBIOL ("isPartOf") → t2.pred = BQBIOL ("isPartOf") →
    t1.obj = t2.obj → t1.subj = t2.subj

/-- Graph invariant behind the harmlessness of the underfiltered
lookup: every subject of an isPartOf triple also carries an is=blood
triple. -/
def BloodBacked (g : RDFGraph) : Prop :=
  ∀ t ∈ g, t.pred = BQBIOL ("isPartOf") →
    Triple.mk t.subj (BQBIOL ("is")) BLOOD_URI ∈ g

/-- Modelled from the spec: the stricter existing-entity query the
design notes describe, conjoining the is=blood relationship with the
isPartOf=location edge; used only to compare against the query the
code actually performs. -/
def strictMatches (g : RDFGraph) (cavity_uri : String) (t : Triple) : Bool :=
  matchesPartOf cavity_uri t &&
    decide (Triple.mk t.subj (BQBIOL ("is")) BLOOD_URI ∈ g)

/-- Decimal parser used to invert natToStr. -/
def charsToNatAux : List Char → Nat → Nat
  | [], acc => acc
  | c :: cs, acc => charsToNatAux cs (acc * 10 + (c.toNat - 48))

/-- Parse a decimal string back to a number. -/
def parseNat (s : String) : Nat := charsToNatAux s.data 0

/-- Abstract node for the determinism analysis: either a fixed URI
string, or the k-th local entity minted during the run (counted from
the start of the run, so independent of the initial counter value). -/
inductive ANode where
  | str : String → ANode
  | loc : Nat → ANode
deriving DecidableEq

/-- Abstract triple over abstract nodes. -/
structure ATriple where
  subj : ANode
  pred : ANode
  obj : ANode
deriving DecidableEq

/-- Concretisation of an abstract node for a given initial counter
value: the k-th minted local becomes the URI of local node base + k,
every other node is the string it carries. -/
def conc (base : Nat) : ANode → String
  | ANode.str s => s
  | ANode.loc k => LOCAL ("local-node-" ++ natToStr (base + k))

/-- Concretisation of an abstract triple. -/
def concT (base : Nat) (t : ATriple) : Triple :=
  { subj := conc base t.subj, pred := conc base t.pred, obj := conc base t.obj }

/-- Abstract graph insertion, mirroring addTriple. -/
def absAddTriple (g : List ATriple) (t : ATriple) : List ATriple :=
  if t ∈ g then g else g ++ [t]

/-- Abstract version of the deduplication query predicate. -/
def absMatchesPartOf (cavity_uri : String) (t : ATriple) : Bool :=
  t.pred == ANode.str (BQBIOL ("isPartOf")) && t.obj == ANode.str cavity_uri

/-- Abstract pipeline state: graph over abstract nodes plus the number
of locals minted so far in this run. -/
structure AbsState where
  graph : List ATriple
  minted : Nat
deriving DecidableEq

/-- Abstract deduplicator mirroring create_local_blood_cavity_definition. -/
def absDedup (g : List ATriple) (minted : Nat) (cavity_uri : String) :
    List ATriple × Nat × ANode :=
  match g.find? (absMatchesPartOf cavity_uri) with
  | some row => (g, minted, row.subj)
  | none =>
    let node := ANode.loc (minted + 1)
    (absAddTriple
       (absAddTriple g { subj := node, pred := ANode.str (BQBIOL ("is")), obj := ANode.str BLOOD_URI })
       { subj := node, pred := ANode.str (BQBIOL ("isPartOf")), obj := ANode.str cavity_uri },
     minted + 1, node)

/-- Abstract volume annotation mirroring create_blood_volume_annotation
for the fixed model path of the driver. -/
def absVol (st : AbsState) (model_id : String) : AbsState :=
  let model_uri := ANode.str (OMEXlib (cellml_file ++ "#" ++ model_id))
  let mapped := map_to_uberon_cavity (split_dot_head model_id)
  let d := absDedup st.graph st.minted mapped.1
  { graph := absAddTriple
      (absAddTriple d.1 { subj := model_uri, pred := ANode.str (BQBIOL ("isPropertyOf")), obj := d.2.2 })
      { subj := model_uri, pred := ANode.str (BQBIOL ("isVersionOf")), obj := ANode.str VOLUME_URI },
    minted := d.2.1 }

/-- Abstract pressure annotation mirroring create_blood_pressure_annotation. -/
def absPres (st : AbsState) (model_id : String) : AbsState :=
  let model_uri := ANode.str (OMEXlib (cellml_file ++ "#" ++ model_id))
  let mapped := map_to_uberon_cavity (split_dot_head model_id)
  let d := absDedup st.graph st.minted mapped.1
  { graph := absAddTriple
      (absAddTriple d.1 { subj := model_uri, pred := ANode.str (BQBIOL ("isPropertyOf")), obj := d.2.2 })
      { subj := model_uri, pred := ANode.str (BQBIOL ("isVersionOf")), obj := ANode.str PRESSURE_URI },
    minted := d.2.1 }

/-- Abstract driver run mirroring run_annotations. -/
def absRun (attributes : List String) : AbsState :=
  let model_ids := get_model_ids attributes
  let st1 := model_ids.volume_ids.foldl absVol { graph := [], minted := 0 }
  model_ids.pressure_ids.foldl absPres st1

/-- Strings that can appear as fixed URIs in a run graph: biology
qualifiers, UBERON terms, OPB terms, and model-variable URIs of the
fixed model document. -/
def OkStr (s : String) : Prop :=
  (∃ x, s = BQBIOL x) ∨ (∃ x, s = UBERON x) ∨ (∃ x, s = OPB x) ∨
  (∃ x, s = OMEXlib (cellml_file ++ "#" ++ x))

/-- A well-formed abstract node: a fixed URI of a known namespace or a
minted local. -/
def GoodNode : ANode → Prop
  | ANode.str s => OkStr s
  | ANode.loc _ => True

/-- A well-formed abstract triple. -/
def GoodT (t : ATriple) : Prop :=
  GoodNode t.subj ∧ GoodNode t.pred ∧ GoodNode t.obj

/-- A well-formed abstract graph. -/
def GoodG (g : List ATriple) : Prop := ∀ t ∈ g, GoodT t

/-! ### Generic helper lemmas -/

lemma mem_addTriple {g : RDFGraph} {t u : Triple} :
    u ∈ addTriple g t ↔ u ∈ g ∨ u = t := by
  unfold addTriple
  split
  · rename_i h
    constructor
    · exact Or.inl
    · rintro (hu | rfl) <;> [exact hu; exact h]
  · simp [List.mem_append]

lemma addTriple_of_mem {g : RDFGraph} {t : Triple} (h : t ∈ g) :
    addTriple g t = g := by simp [addTriple, h]

lemma mem_addTriple_self {g : RDFGraph} {t : Triple} : t ∈ addTriple g t :=
  mem_addTriple.mpr (Or.inr rfl)

lemma mem_addTriple_of_mem {g : RDFGraph} {t u : Triple} (h : u ∈ g) :
    u ∈ addTriple g t := mem_addTriple.mpr (Or.inl h)

lemma find?_addTriple_of_neg {g : RDFGraph} {t : Triple} {p : Triple → Bool}
    (h : p t = false) : (addTriple g t).find? p = g.find? p := by
  unfold addTriple
  split
  · rfl
  · rw [List.find?_append]
    have : List.find? p [t] = none := by simp [List.find?, h]
    rw [this]
    cases g.find? p <;> rfl

lemma find?_addTriple_of_none {g : RDFGraph} {t : Triple} {p : Triple → Bool}
    (hg : g.find? p = none) (ht : p t = true) :
    (addTriple g t).find? p = some t := by
  unfold addTriple
  split
  · rename_i hmem
    exact absurd (List.find?_eq_none.mp hg t hmem) (by simp [ht])
  · rw [List.find?_append, hg]
    simp [List.find?, ht]

lemma find?_addTriple_of_some {g : RDFGraph} {t u : Triple} {p : Triple → Bool}
    (hg : g.find? p = some u) : (addTriple g t).find? p = some u := by
  unfold addTriple
  split
  · exact hg
  · rw [List.find?_append, hg]
    rfl

lemma find?_congr_mem {α} {l : List α} {p q : α → Bool}
    (h : ∀ a ∈ l, p a = q a) : l.find? p = l.find? q := by
  induction l with
  | nil => rfl
  | cons a l ih =>
    rw [List.find?_cons, List.find?_cons, h a (List.mem_cons_self a l)]
    cases q a
    · exact ih fun b hb => h b (List.mem_cons_of_mem a hb)
    · rfl

lemma string_append_cancel_left {a b c : String} (h : a ++ b = a ++ c) : b = c := by
  have hd : (a ++ b).data = (a ++ c).data := by rw [h]
  rw [String.data_append, String.data_append] at hd
  have := List.append_cancel_left hd
  cases b; cases c; exact congrArg String.mk this

lemma string_append_ne_of_take_ne (p q x y : String) (n : Nat)
    (hp : n ≤ p.data.length) (hq : n ≤ q.data.length)
    (h : p.data.take n ≠ q.data.take n) : p ++ x ≠ q ++ y := by
  intro he
  apply h
  have hd : (p ++ x).data = (q ++ y).data := by rw [he]
  rw [String.data_append, String.data_append] at hd
  rw [← List.take_append_of_le_length hp, ← List.take_append_of_le_length hq, hd]

/-! ### C4: cavity resolver totality -/

lemma lookup_eq_none_of_not_mem_keys {l : List (String × String)} {a : String}
    (h : a ∉ l.map Prod.fst) : l.lookup a = none := by
  induction l with
  | nil => rfl
  | cons p l ih =>
    have h1 : ¬(a = p.1) := fun he => h (by simp [he])
    have h2 : a ∉ l.map Prod.fst := fun he => h (by simp [he])
    have hb : (a == p.1) = false := beq_eq_false_iff_ne.mpr h1
    simp only [List.lookup, hb]
    exact ih h2

/-- C4: for every key of the fixed cavity table map_to_uberon_cavity
returns the UBERON identifier the table documents for that key, and
for every abbreviation not among the table keys it returns the generic
anatomical-entity fallback UBERON 0001062 together with one warning,
never failing. -/
theorem cavity_resolver_totality :
    (map_to_uberon_cavity ("lv") = (UBERON ("0016514"), []) ∧
     map_to_uberon_cavity ("rv") = (UBERON ("0016509"), []) ∧
     map_to_uberon_cavity ("la") = (UBERON ("0016513"), []) ∧
     map_to_uberon_cavity ("ra") = (UBERON ("0016522"), []) ∧
     map_to_uberon_cavity ("pa") = (UBERON ("0002012"), []) ∧
     map_to_uberon_cavity ("lung") = (UBERON ("0000102"), []) ∧
     map_to_uberon_cavity ("pulm-vein") = (UBERON ("0002016"), []) ∧
     map_to_uberon_cavity ("brain") = (UBERON ("0008998"), []) ∧
     map_to_uberon_cavity ("brain-vein") = (UBERON ("2005031"), []) ∧
     map_to_uberon_cavity ("aa") = (UBERON ("0001496"), []) ∧
     map_to_uberon_cavity ("celiac") = (UBERON ("0001640"), []) ∧
     map_to_uberon_cavity ("sup-mes") = (UBERON ("0001182"), []) ∧
     map_to_uberon_cavity ("stomach") = (UBERON ("0000945"), []) ∧
     map_to_uberon_cavity ("spleen") = (UBERON ("0036301"), []) ∧
     map_to_uberon_cavity ("pancreas") = (UBERON ("0001264"), []) ∧
     map_to_uberon_cavity ("intestine") = (UBERON ("0000160"), []) ∧
     map_to_uberon_cavity ("colon") = (UBERON ("0001155"), []) ∧
     map_to_uberon_cavity ("portal-vein") = (UBERON ("0002017"), []) ∧
     map_to_uberon_cavity ("liver") = (UBERON ("0006877"), [])) ∧
    ∀ a : String, a ∉ cavity_map.map Prod.fst →
      map_to_uberon_cavity a =
        (UBERON ("0001062"), ["Unknown cavity abbreviation: " ++ a]) := by
  refine ⟨by decide, fun a ha => ?_⟩
  rw [map_to_uberon_cavity, lookup_eq_none_of_not_mem_keys ha]

/-- Closed instance of the cavity-resolver theorem at the concrete
unknown abbreviation zz. -/
theorem cavity_resolver_totality_witness :
    map_to_uberon_cavity ("zz") =
      (UBERON ("0001062"), ["Unknown cavity abbreviation: " ++ "zz"]) :=
  cavity_resolver_totality.2 ("zz") (by decide)

/-! ### C2: end-to-end example -/

/-- C2: running the annotation loop on the three example IDs over an
empty graph yields one local entity for the left-ventricle luminal
space (UBERON 0016514), referenced as isPropertyOf object by the first
two variable URIs, isVersionOf triples to the volume term for IDs 1
and 3 and to the pressure term for ID 2, exactly one further is and
isPartOf pair whose isPartOf object is the fallback term, and exactly
one cavity warning. -/
theorem end_to_end_example :
    ((((run_annotations
        ["lv.blood.volume", "lv.blood.pressure", "unknown-cavity.blood.volume"]
        1024).graph.filter
          (fun t => t.pred == BQBIOL ("isPartOf") && t.obj == UBERON ("0016514"))).map
            (fun t => t.subj)) = [LOCAL ("local-node-1025")]) ∧
    (Triple.mk (OMEXlib ("models/cvs-model.cellml#lv.blood.volume"))
        (BQBIOL ("isPropertyOf")) (LOCAL ("local-node-1025")) ∈
      (run_annotations
        ["lv.blood.volume", "lv.blood.pressure", "unknown-cavity.blood.volume"]
        1024).graph) ∧
    (Triple.mk (OMEXlib ("models/cvs-model.cellml#lv.blood.pressure"))
        (BQBIOL ("isPropertyOf")) (LOCAL ("local-node-1025")) ∈
      (run_annotations
        ["lv.blood.volume", "lv.blood.pressure", "unknown-cavity.blood.volume"]
        1024).graph) ∧
    ((((run_annotations
        ["lv.blood.volume", "lv.blood.pressure", "unknown-cavity.blood.volume"]
        1024).graph.filter
          (fun t => t.pred == BQBIOL ("isVersionOf") && t.obj == VOLUME_URI)).map
            (fun t => t.subj)) =
      [OMEXlib ("models/cvs-model.cellml#lv.blood.volume"),
       OMEXlib ("models/cvs-model.cellml#unknown-cavity.blood.volume")]) ∧
    ((((run_annotations
        ["lv.blood.volume", "lv.blood.pressure", "unknown-cavity.blood.volume"]
        1024).graph.filter
          (fun t => t.pred == BQBIOL ("isVersionOf") && t.obj == PRESSURE_URI)).map
            (fun t => t.subj)) =
      [OMEXlib ("models/cvs-model.cellml#lv.blood.pressure")]) ∧
    ((((run_annotations
        ["lv.blood.volume", "lv.blood.pressure", "unknown-cavity.blood.volume"]
        1024).graph.filter
          (fun t => t.pred == BQBIOL ("is"))).map (fun t => t.subj)) =
      [LOCAL ("local-node-1025"), LOCAL ("local-node-1026")]) ∧
    ((((run_annotations
        ["lv.blood.volume", "lv.blood.pressure", "unknown-cavity.blood.volume"]
        1024).graph.filter
          (fun t => t.pred == BQBIOL ("isPartOf") && t.obj == UBERON ("0001062"))).map
            (fun t => t.subj)) = [LOCAL ("local-node-1026")]) ∧
    ((run_annotations
        ["lv.blood.volume", "lv.blood.pressure", "unknown-cavity.blood.volume"]
        1024).warnings = ["Unknown cavity abbreviation: unknown-cavity"]) := by
  decide

/-! ### C3: classification partition -/

lemma suffix_of_both_endswith {v s1 s2 : String}
    (h1 : endswith v s1 = true) (h2 : endswith v s2 = true)
    (hl : s1.data.length ≤ s2.data.length) : s1.data <:+ s2.data := by
  unfold endswith at h1 h2
  rw [List.isSuffixOf_iff_suffix] at h1 h2
  rw [← List.reverse_prefix] at h1 h2 ⊢
  exact List.prefix_of_prefix_length_le h1 h2 (by simpa using hl)

lemma vol_not_pres {v : String} (h : endswith v (".blood.volume") = true) :
    endswith v (".blood.pressure") = false := by
  by_contra hc
  have h2 : endswith v (".blood.pressure") = true := by
    simpa using hc
  have := suffix_of_both_endswith h h2 (by decide)
  exact absurd this (by decide)

lemma vol_not_flow {v : String} (h : endswith v (".blood.volume") = true) :
    endswith v (".blood.flow") = false := by
  by_contra hc
  have h2 : endswith v (".blood.flow") = true := by simpa using hc
  have := suffix_of_both_endswith h2 h (by decide)
  exact absurd this (by decide)

lemma pres_not_vol {v : String} (h : endswith v (".blood.pressure") = true) :
    endswith v (".blood.volume") = false := by
  by_contra hc
  have h2 : endswith v (".blood.volume") = true := by simpa using hc
  have := suffix_of_both_endswith h2 h (by decide)
  exact absurd this (by decide)

lemma pres_not_flow {v : String} (h : endswith v (".blood.pressure") = true) :
    endswith v (".blood.flow") = false := by
  by_contra hc
  have h2 : endswith v (".blood.flow") = true := by simpa using hc
  have := suffix_of_both_endswith h2 h (by decide)
  exact absurd this (by decide)

lemma flow_not_vol {v : String} (h : endswith v (".blood.flow") = true) :
    endswith v (".blood.volume") = false := by
  by_contra hc
  have h2 : endswith v (".blood.volume") = true := by simpa using hc
  have := suffix_of_both_endswith h h2 (by decide)
  exact absurd this (by decide)

lemma flow_not_pres {v : String} (h : endswith v (".blood.flow") = true) :
    endswith v (".blood.pressure") = false := by
  by_contra hc
  have h2 : endswith v (".blood.pressure") = true := by simpa using hc
  have := suffix_of_both_endswith h h2 (by decide)
  exact absurd this (by decide)

lemma mem_volume_iff {attributes : List String} {v : String} :
    v ∈ (get_model_ids attributes).volume_ids ↔
      v ∈ attributes ∧ endswith v (".blood.volume") = true := by
  induction attributes with
  | nil => simp [get_model_ids]
  | cons a rest ih =>
    simp only [get_model_ids]
    split_ifs with h1 h2 h3
    · simp only [List.mem_cons]
      constructor
      · rintro (rfl | hv)
        · exact ⟨Or.inl rfl, h1⟩
        · exact ⟨Or.inr (ih.mp hv).1, (ih.mp hv).2⟩
      · rintro ⟨(rfl | hm), he⟩
        · exact Or.inl rfl
        · exact Or.inr (ih.mpr ⟨hm, he⟩)
    all_goals
      simp only [List.mem_cons, ih]
      constructor
      · rintro ⟨hm, he⟩
        exact ⟨Or.inr hm, he⟩
      · rintro ⟨(rfl | hm), he⟩
        · exact absurd he (by simp [h1])
        · exact ⟨hm, he⟩

lemma mem_pressure_iff {attributes : List String} {v : String} :
    v ∈ (get_model_ids attributes).pressure_ids ↔
      v ∈ attributes ∧ endswith v (".blood.pressure") = true := by
  induction attributes with
  | nil => simp [get_model_ids]
  | cons a rest ih =>
    simp only [get_model_ids]
    split_ifs with h1 h2 h3
    · simp only [List.mem_cons, ih]
      constructor
      · rintro ⟨hm, he⟩
        exact ⟨Or.inr hm, he⟩
      · rintro ⟨(rfl | hm), he⟩
        · exact absurd h1 (by simp [pres_not_vol he])
        · exact ⟨hm, he⟩
    · simp only [List.mem_cons]
      constructor
      · rintro (rfl | hv)
        · exact ⟨Or.inl rfl, h2⟩
        · exact ⟨Or.inr (ih.mp hv).1, (ih.mp hv).2⟩
      · rintro ⟨(rfl | hm), he⟩
        · exact Or.inl rfl
        · exact Or.inr (ih.mpr ⟨hm, he⟩)
    all_goals
      simp only [List.mem_cons, ih]
      constructor
      · rintro ⟨hm, he⟩
        exact ⟨Or.inr hm, he⟩
      · rintro ⟨(rfl | hm), he⟩
        · exact absurd he (by simp [h2])
        · exact ⟨hm, he⟩

lemma mem_flow_iff {attributes : List String} {v : String} :
    v ∈ (get_model_ids attributes).flow_ids ↔
      v ∈ attributes ∧ endswith v (".blood.flow") = true := by
  induction attributes with
  | nil => simp [get_model_ids]
  | cons a rest ih =>
    simp only [get_model_ids]
    split_ifs with h1 h2 h3
    · simp only [List.mem_cons, ih]
      constructor
      · rintro ⟨hm, he⟩
        exact ⟨Or.inr hm, he⟩
      · rintro ⟨(rfl | hm), he⟩
        · exact absurd h1 (by simp [flow_not_vol he])
        · exact ⟨hm, he⟩
    · simp only [List.mem_cons, ih]
      constructor
      · rintro ⟨hm, he⟩
        exact ⟨Or.inr hm, he⟩
      · rintro ⟨(rfl | hm), he⟩
        · exact absurd h2 (by simp [flow_not_pres he])
        · exact ⟨hm, he⟩
    · simp only [List.mem_cons]
      constructor
      · rintro (rfl | hv)
        · exact ⟨Or.inl rfl, h3⟩
        · exact ⟨Or.inr (ih.mp hv).1, (ih.mp hv).2⟩
      · rintro ⟨(rfl | hm), he⟩
        · exact Or.inl rfl
        · exact Or.inr (ih.mpr ⟨hm, he⟩)
    · simp only [List.mem_cons, ih]
      constructor
      · rintro ⟨hm, he⟩
        exact ⟨Or.inr hm, he⟩
      · rintro ⟨(rfl | hm), he⟩
        · exact absurd he (by simp [h3])
        · exact ⟨hm, he⟩

lemma count_unknown_msgs {v : String} (attributes : List String)
    (h1 : endswith v (".blood.volume") = false)
    (h2 : endswith v (".blood.pressure") = false)
    (h3 : endswith v (".blood.flow") = false) :
    (get_model_ids attributes).unknown_msgs.count ("Unknown ID: " ++ v)
      = attributes.count v := by
  induction attributes with
  | nil => rfl
  | cons a rest ih =>
    simp only [get_model_ids]
    split_ifs with ha1 ha2 ha3
    · have hav : (a == v) = false := beq_eq_false_iff_ne.mpr
        (fun he => by subst he; rw [ha1] at h1; exact Bool.noConfusion h1)
      rw [List.count_cons, hav, ih]
      simp
    · have hav : (a == v) = false := beq_eq_false_iff_ne.mpr
        (fun he => by subst he; rw [ha2] at h2; exact Bool.noConfusion h2)
      rw [List.count_cons, hav, ih]
      simp
    · have hav : (a == v) = false := beq_eq_false_iff_ne.mpr
        (fun he => by subst he; rw [ha3] at h3; exact Bool.noConfusion h3)
      rw [List.count_cons, hav, ih]
      simp
    · rw [List.count_cons, List.count_cons]
      have hmsg : (("Unknown ID: " ++ a) == ("Unknown ID: " ++ v)) = (a == v) := by
        by_cases hav : a = v
        · subst hav
          simp
        · have hne : "Unknown ID: " ++ a ≠ "Unknown ID: " ++ v :=
            fun he => hav (string_append_cancel_left he)
          rw [beq_eq_false_iff_ne.mpr hne, beq_eq_false_iff_ne.mpr hav]
      rw [hmsg, ih]

/-- C3: every attribute value ending in .blood.volume is placed in the
volume bucket and in no other bucket, likewise for .blood.pressure and
.blood.flow, and every value matching none of the three suffixes is in
no bucket and triggers exactly one Unknown ID diagnostic per
occurrence. -/
theorem classification_partition (attributes : List String) (v : String)
    (hv : v ∈ attributes) :
    (endswith v (".blood.volume") = true →
      v ∈ (get_model_ids attributes).volume_ids ∧
      v ∉ (get_model_ids attributes).pressure_ids ∧
      v ∉ (get_model_ids attributes).flow_ids) ∧
    (endswith v (".blood.pressure") = true →
      v ∈ (get_model_ids attributes).pressure_ids ∧
      v ∉ (get_model_ids attributes).volume_ids ∧
      v ∉ (get_model_ids attributes).flow_ids) ∧
    (endswith v (".blood.flow") = true →
      v ∈ (get_model_ids attributes).flow_ids ∧
      v ∉ (get_model_ids attributes).volume_ids ∧
      v ∉ (get_model_ids attributes).pressure_ids) ∧
    (endswith v (".blood.volume") = false →
     endswith v (".blood.pressure") = false →
     endswith v (".blood.flow") = false →
      v ∉ (get_model_ids attributes).volume_ids ∧
      v ∉ (get_model_ids attributes).pressure_ids ∧
      v ∉ (get_model_ids attributes).flow_ids ∧
      (get_model_ids attributes).unknown_msgs.count ("Unknown ID: " ++ v)
        = attributes.count v) := by
  refine ⟨fun h => ?_, fun h => ?_, fun h => ?_, fun h1 h2 h3 => ?_⟩
  · exact ⟨mem_volume_iff.mpr ⟨hv, h⟩,
      fun hm => by have hc := (mem_pressure_iff.mp hm).2; rw [vol_not_pres h] at hc; exact Bool.noConfusion hc,
      fun hm => by have hc := (mem_flow_iff.mp hm).2; rw [vol_not_flow h] at hc; exact Bool.noConfusion hc⟩
  · exact ⟨mem_pressure_iff.mpr ⟨hv, h⟩,
      fun hm => by have hc := (mem_volume_iff.mp hm).2; rw [pres_not_vol h] at hc; exact Bool.noConfusion hc,
      fun hm => by have hc := (mem_flow_iff.mp hm).2; rw [pres_not_flow h] at hc; exact Bool.noConfusion hc⟩
  · exact ⟨mem_flow_iff.mpr ⟨hv, h⟩,
      fun hm => by have hc := (mem_volume_iff.mp hm).2; rw [flow_not_vol h] at hc; exact Bool.noConfusion hc,
      fun hm => by have hc := (mem_pressure_iff.mp hm).2; rw [flow_not_pres h] at hc; exact Bool.noConfusion hc⟩
  · exact ⟨fun hm => by rw [(mem_volume_iff.mp hm).2] at h1; exact Bool.noConfusion h1,
      fun hm => by rw [(mem_pressure_iff.mp hm).2] at h2; exact Bool.noConfusion h2,
      fun hm => by rw [(mem_flow_iff.mp hm).2] at h3; exact Bool.noConfusion h3,
      count_unknown_msgs attributes h1 h2 h3⟩

/-- Closed instance of the classification theorem: volume placement of
the first example ID and the diagnostic count for an unrecognized ID. -/
theorem classification_partition_witness :
    ("lv.blood.volume" ∈ (get_model_ids ["lv.blood.volume", "bad-id"]).volume_ids ∧
     "lv.blood.volume" ∉ (get_model_ids ["lv.blood.volume", "bad-id"]).pressure_ids ∧
     "lv.blood.volume" ∉ (get_model_ids ["lv.blood.volume", "bad-id"]).flow_ids) ∧
    ((get_model_ids ["lv.blood.volume", "bad-id"]).unknown_msgs.count
        ("Unknown ID: " ++ "bad-id") = ["lv.blood.volume", "bad-id"].count "bad-id") :=
  ⟨(classification_partition ["lv.blood.volume", "bad-id"] "lv.blood.volume"
      (by decide)).1 (by decide),
   ((classification_partition ["lv.blood.volume", "bad-id"] "bad-id"
      (by decide)).2.2.2 (by decide) (by decide) (by decide)).2.2.2⟩

/-! ### C5: shape of the deduplicator lookup -/

/-- C5: whenever the graph holds any triple with an isPartOf edge to
the target location, with no requirement that its subject also carry an
is=blood edge, create_local_blood_cavity_definition returns the subject
of the first such triple and leaves graph and counter unchanged. -/
theorem dedup_lookup_shape (g : RDFGraph) (ctr : Nat) (loc : String)
    (h : ∃ t ∈ g, t.pred = BQBIOL ("isPartOf") ∧ t.obj = loc) :
    ∃ t, g.find? (matchesPartOf loc) = some t ∧ t ∈ g ∧
      t.pred = BQBIOL ("isPartOf") ∧ t.obj = loc ∧
      create_local_blood_cavity_definition g ctr loc =
        { graph := g, ctr := ctr, node := t.subj } := by
  have hs : (g.find? (matchesPartOf loc)).isSome := by
    rw [List.find?_isSome]
    obtain ⟨t, ht, hp, ho⟩ := h
    exact ⟨t, ht, by simp [matchesPartOf, hp, ho]⟩
  obtain ⟨t, hfind⟩ := Option.isSome_iff_exists.mp hs
  have hp := List.find?_some hfind
  simp only [matchesPartOf, Bool.and_eq_true, beq_iff_eq] at hp
  refine ⟨t, hfind, List.mem_of_find?_eq_some hfind, hp.1, hp.2, ?_⟩
  simp only [create_local_blood_cavity_definition, hfind]

/-- Closed instance of the lookup-shape theorem on a graph whose only
isPartOf subject carries no is=blood triple at all: the subject is
still returned and nothing is added. -/
theorem dedup_lookup_shape_witness :
    ∃ t, ([Triple.mk ("not-a-blood-entity") (BQBIOL ("isPartOf")) (UBERON ("0016514"))] :
        RDFGraph).find? (matchesPartOf (UBERON ("0016514"))) = some t ∧
      t ∈ ([Triple.mk ("not-a-blood-entity") (BQBIOL ("isPartOf")) (UBERON ("0016514"))] :
        RDFGraph) ∧
      t.pred = BQBIOL ("isPartOf") ∧ t.obj = UBERON ("0016514") ∧
      create_local_blood_cavity_definition
          [Triple.mk ("not-a-blood-entity") (BQBIOL ("isPartOf")) (UBERON ("0016514"))]
          1024 (UBERON ("0016514")) =
        { graph := [Triple.mk ("not-a-blood-entity") (BQBIOL ("isPartOf")) (UBERON ("0016514"))],
          ctr := 1024, node := t.subj } :=
  dedup_lookup_shape
    [Triple.mk ("not-a-blood-entity") (BQBIOL ("isPartOf")) (UBERON ("0016514"))]
    1024 (UBERON ("0016514")) (by decide)

/-! ### C7: annotation emitter contract -/

/-- C7: each emitter adds exactly the isPropertyOf triple to the local
blood-cavity entity and the isVersionOf triple to its fixed physical
quantity term, over and above whatever the deduplicator added, with the
model-variable URI formed from the document path plus the raw ID as a
fragment. -/
theorem annotation_emitter_contract (st : AnnotState) (model : String)
    (mid : String) (t : Triple) :
    (t ∈ ( create_blood_volume_annotation st model mid).graph ↔
      t ∈ (create_local_blood_cavity_definition st.graph st.ctr
            (map_to_uberon_cavity (split_dot_head mid)).1).graph ∨
      t = Triple.mk (OMEXlib (model ++ "#" ++ mid)) (BQBIOL ("isPropertyOf"))
            (create_local_blood_cavity_definition st.graph st.ctr
              (map_to_uberon_cavity (split_dot_head mid)).1).node ∨
      t = Triple.mk (OMEXlib (model ++ "#" ++ mid)) (BQBIOL ("isVersionOf")) VOLUME_URI) ∧
    (t ∈ ( create_blood_pressure_annotation st model mid).graph ↔
      t ∈ (create_local_blood_cavity_definition st.graph st.ctr
            (map_to_uberon_cavity (split_dot_head mid)).1).graph ∨
      t = Triple.mk (OMEXlib (model ++ "#" ++ mid)) (BQBIOL ("isPropertyOf"))
            (create_local_blood_cavity_definition st.graph st.ctr
              (map_to_uberon_cavity (split_dot_head mid)).1).node ∨
      t = Triple.mk (OMEXlib (model ++ "#" ++ mid)) (BQBIOL ("isVersionOf")) PRESSURE_URI) := by
  constructor
  · simp only [ create_blood_volume_annotation, mem_addTriple, or_assoc]
  · simp only [ create_blood_pressure_annotation, mem_addTriple, or_assoc]

/-! ### C9: annotation idempotence -/

lemma dedup_of_find?_some {g : RDFGraph} {ctr : Nat} {curi : String} {t : Triple}
    (h : g.find? (matchesPartOf curi) = some t) :
    create_local_blood_cavity_definition g ctr curi =
      { graph := g, ctr := ctr, node := t.subj } := by
  simp only [create_local_blood_cavity_definition, h]

lemma dedup_of_find?_none {g : RDFGraph} {ctr : Nat} {curi : String}
    (h : g.find? (matchesPartOf curi) = none) :
    create_local_blood_cavity_definition g ctr curi =
      { graph := addTriple
          (addTriple g (Triple.mk (LOCAL ("local-node-" ++ natToStr (ctr + 1)))
            (BQBIOL ("is")) BLOOD_URI))
          (Triple.mk (LOCAL ("local-node-" ++ natToStr (ctr + 1)))
            (BQBIOL ("isPartOf")) curi),
        ctr := ctr + 1,
        node := LOCAL ("local-node-" ++ natToStr (ctr + 1)) } := by
  simp only [create_local_blood_cavity_definition, h, _get_local_id]

lemma matchesPartOf_is_false {curi s : String} :
    matchesPartOf curi (Triple.mk s (BQBIOL ("is")) BLOOD_URI) = false := by
  have : (BQBIOL ("is") == BQBIOL ("isPartOf")) = false := by decide
  simp [matchesPartOf, this]

lemma matchesPartOf_prop_false {curi s o : String} :
    matchesPartOf curi (Triple.mk s (BQBIOL ("isPropertyOf")) o) = false := by
  have : (BQBIOL ("isPropertyOf") == BQBIOL ("isPartOf")) = false := by decide
  simp [matchesPartOf, this]

lemma matchesPartOf_ver_false {curi s o : String} :
    matchesPartOf curi (Triple.mk s (BQBIOL ("isVersionOf")) o) = false := by
  have : (BQBIOL ("isVersionOf") == BQBIOL ("isPartOf")) = false := by decide
  simp [matchesPartOf, this]

lemma matchesPartOf_self {curi s : String} :
    matchesPartOf curi (Triple.mk s (BQBIOL ("isPartOf")) curi) = true := by
  simp [matchesPartOf]

lemma dedup_graph_find (g : RDFGraph) (ctr : Nat) (curi : String) :
    ∃ t, (create_local_blood_cavity_definition g ctr curi).graph.find?
        (matchesPartOf curi) = some t ∧
      t.subj = (create_local_blood_cavity_definition g ctr curi).node := by
  cases hf : g.find? (matchesPartOf curi) with
  | some row =>
    rw [dedup_of_find?_some hf]
    exact ⟨row, hf, rfl⟩
  | none =>
    rw [dedup_of_find?_none hf]
    refine ⟨Triple.mk (LOCAL ("local-node-" ++ natToStr (ctr + 1)))
      (BQBIOL ("isPartOf")) curi, ?_, rfl⟩
    rw [find?_addTriple_of_none ?_ matchesPartOf_self]
    rw [find?_addTriple_of_neg matchesPartOf_is_false]
    exact hf

lemma emit_idem (g : RDFGraph) (ctr : Nat) (muri curi ver : String) :
    (create_local_blood_cavity_definition
        (addTriple
          (addTriple (create_local_blood_cavity_definition g ctr curi).graph
            (Triple.mk muri (BQBIOL ("isPropertyOf"))
              (create_local_blood_cavity_definition g ctr curi).node))
          (Triple.mk muri (BQBIOL ("isVersionOf")) ver))
        (create_local_blood_cavity_definition g ctr curi).ctr curi).graph =
      addTriple
        (addTriple (create_local_blood_cavity_definition g ctr curi).graph
          (Triple.mk muri (BQBIOL ("isPropertyOf"))
            (create_local_blood_cavity_definition g ctr curi).node))
        (Triple.mk muri (BQBIOL ("isVersionOf")) ver) ∧
    (create_local_blood_cavity_definition
        (addTriple
          (addTriple (create_local_blood_cavity_definition g ctr curi).graph
            (Triple.mk muri (BQBIOL ("isPropertyOf"))
              (create_local_blood_cavity_definition g ctr curi).node))
          (Triple.mk muri (BQBIOL ("isVersionOf")) ver))
        (create_local_blood_cavity_definition g ctr curi).ctr curi).node =
      (create_local_blood_cavity_definition g ctr curi).node := by
  obtain ⟨t, hfind, hsubj⟩ := dedup_graph_find g ctr curi
  have hf' : (addTriple
      (addTriple (create_local_blood_cavity_definition g ctr curi).graph
        (Triple.mk muri (BQBIOL ("isPropertyOf"))
          (create_local_blood_cavity_definition g ctr curi).node))
      (Triple.mk muri (BQBIOL ("isVersionOf")) ver)).find? (matchesPartOf curi) = some t := by
    rw [find?_addTriple_of_neg matchesPartOf_ver_false,
        find?_addTriple_of_neg matchesPartOf_prop_false]
    exact hfind
  rw [dedup_of_find?_some hf', hsubj]
  exact ⟨rfl, rfl⟩

lemma add_two_again (X : RDFGraph) (a b : Triple) :
    addTriple (addTriple (addTriple (addTriple X a) b) a) b
      = addTriple (addTriple X a) b := by
  have ha : a ∈ addTriple (addTriple X a) b :=
    mem_addTriple_of_mem mem_addTriple_self
  rw [addTriple_of_mem ha]
  exact addTriple_of_mem mem_addTriple_self

/-- C9: re-running either annotation with the same graph, model path,
and model ID leaves the triple set unchanged: the deduplicator hands
back the entity of the first run and both emitted triples are already
present. -/
theorem annotation_idempotent (st : AnnotState) (model : String) (mid : String) :
    ( create_blood_volume_annotation ( create_blood_volume_annotation st model mid)
        model mid).graph = ( create_blood_volume_annotation st model mid).graph ∧
    ( create_blood_pressure_annotation ( create_blood_pressure_annotation st model mid)
        model mid).graph = ( create_blood_pressure_annotation st model mid).graph := by
  constructor
  · simp only [ create_blood_volume_annotation]
    rw [(emit_idem st.graph st.ctr (OMEXlib (model ++ "#" ++ mid))
          (map_to_uberon_cavity (split_dot_head mid)).1 VOLUME_URI).1,
        (emit_idem st.graph st.ctr (OMEXlib (model ++ "#" ++ mid))
          (map_to_uberon_cavity (split_dot_head mid)).1 VOLUME_URI).2]
    exact add_two_again _ _ _
  · simp only [ create_blood_pressure_annotation]
    rw [(emit_idem st.graph st.ctr (OMEXlib (model ++ "#" ++ mid))
          (map_to_uberon_cavity (split_dot_head mid)).1 PRESSURE_URI).1,
        (emit_idem st.graph st.ctr (OMEXlib (model ++ "#" ++ mid))
          (map_to_uberon_cavity (split_dot_head mid)).1 PRESSURE_URI).2]
    exact add_two_again _ _ _

/-! ### C6: fresh-entity minting -/

lemma find?_none_of_no_match {g : RDFGraph} {loc : String}
    (h : ∀ t ∈ g, ¬(t.pred = BQBIOL ("isPartOf") ∧ t.obj = loc)) :
    g.find? (matchesPartOf loc) = none :=
  List.find?_eq_none.mpr fun t ht hc =>
    h t ht (by simpa [matchesPartOf, Bool.and_eq_true, beq_iff_eq] using hc)

lemma mem_dedup_none_iff {g : RDFGraph} {ctr : Nat} {curi : String}
    (h : g.find? (matchesPartOf curi) = none) (u : Triple) :
    u ∈ (create_local_blood_cavity_definition g ctr curi).graph ↔
      u ∈ g ∨
      u = Triple.mk (LOCAL ("local-node-" ++ natToStr (ctr + 1))) (BQBIOL ("is")) BLOOD_URI ∨
      u = Triple.mk (LOCAL ("local-node-" ++ natToStr (ctr + 1))) (BQBIOL ("isPartOf")) curi := by
  rw [dedup_of_find?_none h]
  simp only [mem_addTriple, or_assoc]

lemma mem_vol_annotation_iff (st : AnnotState) (model : String) (mid : String) (u : Triple) :
    u ∈ ( create_blood_volume_annotation st model mid).graph ↔
      u ∈ (create_local_blood_cavity_definition st.graph st.ctr
            (map_to_uberon_cavity (split_dot_head mid)).1).graph ∨
      u = Triple.mk (OMEXlib (model ++ "#" ++ mid)) (BQBIOL ("isPropertyOf"))
            (create_local_blood_cavity_definition st.graph st.ctr
              (map_to_uberon_cavity (split_dot_head mid)).1).node ∨
      u = Triple.mk (OMEXlib (model ++ "#" ++ mid)) (BQBIOL ("isVersionOf")) VOLUME_URI := by
  simp only [ create_blood_volume_annotation, mem_addTriple, or_assoc]

lemma mem_pres_annotation_iff (st : AnnotState) (model : String) (mid : String) (u : Triple) :
    u ∈ ( create_blood_pressure_annotation st model mid).graph ↔
      u ∈ (create_local_blood_cavity_definition st.graph st.ctr
            (map_to_uberon_cavity (split_dot_head mid)).1).graph ∨
      u = Triple.mk (OMEXlib (model ++ "#" ++ mid)) (BQBIOL ("isPropertyOf"))
            (create_local_blood_cavity_definition st.graph st.ctr
              (map_to_uberon_cavity (split_dot_head mid)).1).node ∨
      u = Triple.mk (OMEXlib (model ++ "#" ++ mid)) (BQBIOL ("isVersionOf")) PRESSURE_URI := by
  simp only [ create_blood_pressure_annotation, mem_addTriple, or_assoc]

/-- C6: with no isPartOf edge to the location present, the deduplicator
mints the successor of the process-wide counter, whose produced value
always exceeds the reserved threshold 1024 when the counter starts at
or above it, adds exactly the is=blood and isPartOf triples for the new
local entity, and returns it; and annotating two variables resolving to
two distinct locations yields two distinct local entities, each with
its own is/isPartOf pair. -/
theorem fresh_entity_minting :
    (∀ (g : RDFGraph) (ctr : Nat) (loc : String),
      (∀ t ∈ g, ¬(t.pred = BQBIOL ("isPartOf") ∧ t.obj = loc)) → 1024 ≤ ctr →
      (create_local_blood_cavity_definition g ctr loc).ctr = ctr + 1 ∧
      ctr < (create_local_blood_cavity_definition g ctr loc).ctr ∧
      1024 < (create_local_blood_cavity_definition g ctr loc).ctr ∧
      (create_local_blood_cavity_definition g ctr loc).node =
        LOCAL ("local-node-" ++ natToStr (ctr + 1)) ∧
      (∀ u : Triple, u ∈ (create_local_blood_cavity_definition g ctr loc).graph ↔
        u ∈ g ∨
        u = Triple.mk (create_local_blood_cavity_definition g ctr loc).node
              (BQBIOL ("is")) BLOOD_URI ∨
        u = Triple.mk (create_local_blood_cavity_definition g ctr loc).node
              (BQBIOL ("isPartOf")) loc)) ∧
    (∀ model m1 m2 : String,
      (map_to_uberon_cavity (split_dot_head m1)).1 ≠
        (map_to_uberon_cavity (split_dot_head m2)).1 →
      ∃ n1 n2 : String, n1 ≠ n2 ∧
        Triple.mk n1 (BQBIOL ("is")) BLOOD_URI ∈
          ( create_blood_volume_annotation
            ( create_blood_volume_annotation { graph := [], ctr := 1024, warnings := [] }
              model m1) model m2).graph ∧
        Triple.mk n1 (BQBIOL ("isPartOf")) (map_to_uberon_cavity (split_dot_head m1)).1 ∈
          ( create_blood_volume_annotation
            ( create_blood_volume_annotation { graph := [], ctr := 1024, warnings := [] }
              model m1) model m2).graph ∧
        Triple.mk n2 (BQBIOL ("is")) BLOOD_URI ∈
          ( create_blood_volume_annotation
            ( create_blood_volume_annotation { graph := [], ctr := 1024, warnings := [] }
              model m1) model m2).graph ∧
        Triple.mk n2 (BQBIOL ("isPartOf")) (map_to_uberon_cavity (split_dot_head m2)).1 ∈
          ( create_blood_volume_annotation
            ( create_blood_volume_annotation { graph := [], ctr := 1024, warnings := [] }
              model m1) model m2).graph) := by
  constructor
  · intro g ctr loc h hctr
    have hnone := find?_none_of_no_match h
    rw [dedup_of_find?_none hnone]
    refine ⟨rfl, Nat.lt_succ_self ctr, Nat.lt_succ_of_le hctr, rfl, fun u => ?_⟩
    simp only [mem_addTriple, or_assoc]
  · intro model m1 m2 hne
    have h0 : (([] : RDFGraph)).find? (matchesPartOf
        (map_to_uberon_cavity (split_dot_head m1)).1) = none := rfl
    have hA : Triple.mk (LOCAL ("local-node-" ++ natToStr (1024 + 1)))
        (BQBIOL ("is")) BLOOD_URI ∈
        ( create_blood_volume_annotation { graph := [], ctr := 1024, warnings := [] }
          model m1).graph :=
      (mem_vol_annotation_iff _ model m1 _).mpr
        (Or.inl ((mem_dedup_none_iff h0 _).mpr (Or.inr (Or.inl rfl))))
    have hB : Triple.mk (LOCAL ("local-node-" ++ natToStr (1024 + 1)))
        (BQBIOL ("isPartOf")) (map_to_uberon_cavity (split_dot_head m1)).1 ∈
        ( create_blood_volume_annotation { graph := [], ctr := 1024, warnings := [] }
          model m1).graph :=
      (mem_vol_annotation_iff _ model m1 _).mpr
        (Or.inl ((mem_dedup_none_iff h0 _).mpr (Or.inr (Or.inr rfl))))
    have hfind2 : ( create_blood_volume_annotation
        { graph := [], ctr := 1024, warnings := [] } model m1).graph.find?
          (matchesPartOf (map_to_uberon_cavity (split_dot_head m2)).1) = none := by
      apply List.find?_eq_none.mpr
      intro u hu
      rcases (mem_vol_annotation_iff _ model m1 u).mp hu with hd | hp | hv
      · rcases (mem_dedup_none_iff h0 u).mp hd with he | hi | hpt
        · exact absurd he (List.not_mem_nil u)
        · subst hi
          simp [matchesPartOf_is_false]
        · subst hpt
          intro hc
          simp only [matchesPartOf, Bool.and_eq_true, beq_iff_eq] at hc
          exact hne hc.2
      · subst hp
        simp [matchesPartOf_prop_false]
      · subst hv
        simp [matchesPartOf_ver_false]
    refine ⟨LOCAL ("local-node-" ++ natToStr (1024 + 1)),
      LOCAL ("local-node-" ++ natToStr (1025 + 1)), by decide, ?_, ?_, ?_, ?_⟩
    · exact (mem_vol_annotation_iff _ model m2 _).mpr
        (Or.inl ((mem_dedup_none_iff hfind2 _).mpr (Or.inl hA)))
    · exact (mem_vol_annotation_iff _ model m2 _).mpr
        (Or.inl ((mem_dedup_none_iff hfind2 _).mpr (Or.inl hB)))
    · exact (mem_vol_annotation_iff _ model m2 _).mpr
        (Or.inl ((mem_dedup_none_iff hfind2 _).mpr (Or.inr (Or.inl rfl))))
    · exact (mem_vol_annotation_iff _ model m2 _).mpr
        (Or.inl ((mem_dedup_none_iff hfind2 _).mpr (Or.inr (Or.inr rfl))))

/-- Closed instance of the minting theorem: counter and distinctness
conclusions at an empty graph and at two concrete IDs resolving to the
left and right ventricle locations. -/
theorem fresh_entity_minting_witness :
    (create_local_blood_cavity_definition [] 1024 (UBERON ("0016514"))).ctr = 1024 + 1 ∧
    (∃ n1 n2 : String, n1 ≠ n2 ∧
      Triple.mk n1 (BQBIOL ("is")) BLOOD_URI ∈
        ( create_blood_volume_annotation
          ( create_blood_volume_annotation { graph := [], ctr := 1024, warnings := [] }
            cellml_file ("lv.blood.volume")) cellml_file ("rv.blood.volume")).graph ∧
      Triple.mk n1 (BQBIOL ("isPartOf"))
          (map_to_uberon_cavity (split_dot_head ("lv.blood.volume"))).1 ∈
        ( create_blood_volume_annotation
          ( create_blood_volume_annotation { graph := [], ctr := 1024, warnings := [] }
            cellml_file ("lv.blood.volume")) cellml_file ("rv.blood.volume")).graph ∧
      Triple.mk n2 (BQBIOL ("is")) BLOOD_URI ∈
        ( create_blood_volume_annotation
          ( create_blood_volume_annotation { graph := [], ctr := 1024, warnings := [] }
            cellml_file ("lv.blood.volume")) cellml_file ("rv.blood.volume")).graph ∧
      Triple.mk n2 (BQBIOL ("isPartOf"))
          (map_to_uberon_cavity (split_dot_head ("rv.blood.volume"))).1 ∈
        ( create_blood_volume_annotation
          ( create_blood_volume_annotation { graph := [], ctr := 1024, warnings := [] }
            cellml_file ("lv.blood.volume")) cellml_file ("rv.blood.volume")).graph) :=
  ⟨(fresh_entity_minting.1 [] 1024 (UBERON ("0016514"))
      (by simp) (by decide)).1,
   fresh_entity_minting.2 cellml_file ("lv.blood.volume") ("rv.blood.volume") (by decide)⟩

/-! ### C1: deduplication invariant over whole runs -/

lemma invG_addTriple_not_partOf {g : RDFGraph} {t : Triple} (h : InvG g)
    (hp : t.pred ≠ BQBIOL ("isPartOf")) : InvG (addTriple g t) := by
  intro t1 h1 t2 h2 hp1 hp2 ho
  rcases mem_addTriple.mp h1 with h1m | rfl
  · rcases mem_addTriple.mp h2 with h2m | rfl
    · exact h t1 h1m t2 h2m hp1 hp2 ho
    · exact absurd hp2 hp
  · exact absurd hp1 hp

lemma invG_addTriple_new_loc {g : RDFGraph} {t : Triple} (h : InvG g)
    (hnew : ∀ u ∈ g, ¬(u.pred = BQBIOL ("isPartOf") ∧ u.obj = t.obj)) :
    InvG (addTriple g t) := by
  intro t1 h1 t2 h2 hp1 hp2 ho
  rcases mem_addTriple.mp h1 with h1m | rfl
  · rcases mem_addTriple.mp h2 with h2m | rfl
    · exact h t1 h1m t2 h2m hp1 hp2 ho
    · exact absurd ⟨hp1, ho⟩ (hnew t1 h1m)
  · rcases mem_addTriple.mp h2 with h2m | rfl
    · exact absurd ⟨hp2, ho.symm⟩ (hnew t2 h2m)
    · rfl

lemma invG_dedup {g : RDFGraph} {ctr : Nat} {curi : String} (h : InvG g) :
    InvG (create_local_blood_cavity_definition g ctr curi).graph := by
  cases hf : g.find? (matchesPartOf curi) with
  | some row =>
    rw [dedup_of_find?_some hf]
    exact h
  | none =>
    rw [dedup_of_find?_none hf]
    apply invG_addTriple_new_loc
    · exact invG_addTriple_not_partOf h
        (show BQBIOL ("is") ≠ BQBIOL ("isPartOf") by decide)
    · intro u hu
      rcases mem_addTriple.mp hu with hum | rfl
      · intro hc
        exact (List.find?_eq_none.mp hf u hum) (by simp [matchesPartOf, hc.1, hc.2])
      · intro hc
        exact absurd hc.1 (show BQBIOL ("is") ≠ BQBIOL ("isPartOf") from by decide)

lemma invG_vol {st : AnnotState} {model mid : String} (h : InvG st.graph) :
    InvG ( create_blood_volume_annotation st model mid).graph := by
  simp only [ create_blood_volume_annotation]
  exact invG_addTriple_not_partOf
    (invG_addTriple_not_partOf (invG_dedup h)
      (show BQBIOL ("isPropertyOf") ≠ BQBIOL ("isPartOf") by decide))
    (show BQBIOL ("isVersionOf") ≠ BQBIOL ("isPartOf") by decide)

lemma invG_pres {st : AnnotState} {model mid : String} (h : InvG st.graph) :
    InvG ( create_blood_pressure_annotation st model mid).graph := by
  simp only [ create_blood_pressure_annotation]
  exact invG_addTriple_not_partOf
    (invG_addTriple_not_partOf (invG_dedup h)
      (show BQBIOL ("isPropertyOf") ≠ BQBIOL ("isPartOf") by decide))
    (show BQBIOL ("isVersionOf") ≠ BQBIOL ("isPartOf") by decide)

lemma invG_runOps (model : String) (ops : List AnnOp) (st : AnnotState)
    (h : InvG st.graph) : InvG (runOps model st ops).graph := by
  induction ops generalizing st with
  | nil => exact h
  | cons op ops ih =>
    cases op with
    | vol mid => exact ih _ (invG_vol h)
    | pres mid => exact ih _ (invG_pres h)

/-- C1: in any run over an initially empty graph, no two distinct local
entities both carry is=blood and isPartOf to the same location, and
once a subject with an isPartOf edge to a location is in the graph,
create_local_blood_cavity_definition returns exactly it, adding
nothing. -/
theorem dedup_invariant (model : String) (ctr : Nat) (ops : List AnnOp) :
    (∀ e1 e2 loc : String,
      Triple.mk e1 (BQBIOL ("is")) BLOOD_URI ∈
        (runOps model { graph := [], ctr := ctr, warnings := [] } ops).graph →
      Triple.mk e1 (BQBIOL ("isPartOf")) loc ∈
        (runOps model { graph := [], ctr := ctr, warnings := [] } ops).graph →
      Triple.mk e2 (BQBIOL ("is")) BLOOD_URI ∈
        (runOps model { graph := [], ctr := ctr, warnings := [] } ops).graph →
      Triple.mk e2 (BQBIOL ("isPartOf")) loc ∈
        (runOps model { graph := [], ctr := ctr, warnings := [] } ops).graph →
      e1 = e2) ∧
    (∀ s loc : String,
      Triple.mk s (BQBIOL ("isPartOf")) loc ∈
        (runOps model { graph := [], ctr := ctr, warnings := [] } ops).graph →
      create_local_blood_cavity_definition
          (runOps model { graph := [], ctr := ctr, warnings := [] } ops).graph
          (runOps model { graph := [], ctr := ctr, warnings := [] } ops).ctr loc =
        { graph := (runOps model { graph := [], ctr := ctr, warnings := [] } ops).graph,
          ctr := (runOps model { graph := [], ctr := ctr, warnings := [] } ops).ctr,
          node := s }) := by
  have hinv : InvG (runOps model { graph := [], ctr := ctr, warnings := [] } ops).graph :=
    invG_runOps model ops _ (fun t ht => absurd ht (List.not_mem_nil t))
  constructor
  · intro e1 e2 loc h1 h2 h3 h4
    exact hinv _ h2 _ h4 rfl rfl rfl
  · intro s loc hmem
    have hs : ((runOps model { graph := [], ctr := ctr, warnings := [] } ops).graph.find?
        (matchesPartOf loc)).isSome := by
      rw [List.find?_isSome]
      exact ⟨_, hmem, by simp [matchesPartOf]⟩
    obtain ⟨t, hfind⟩ := Option.isSome_iff_exists.mp hs
    have hp := List.find?_some hfind
    simp only [matchesPartOf, Bool.and_eq_true, beq_iff_eq] at hp
    have hsubj : t.subj = s :=
      hinv t (List.mem_of_find?_eq_some hfind) (Triple.mk s (BQBIOL ("isPartOf")) loc)
        hmem hp.1 rfl hp.2
    rw [dedup_of_find?_some hfind, hsubj]

/-- Closed instance of the run-level deduplication invariant: after a
volume annotation for the left ventricle, a further deduplication call
for its location returns the minted entity and leaves everything
unchanged. -/
theorem dedup_invariant_witness :
    create_local_blood_cavity_definition
        (runOps cellml_file { graph := [], ctr := 1024, warnings := [] }
          [AnnOp.vol ("lv.blood.volume")]).graph
        (runOps cellml_file { graph := [], ctr := 1024, warnings := [] }
          [AnnOp.vol ("lv.blood.volume")]).ctr
        (UBERON ("0016514")) =
      { graph := (runOps cellml_file { graph := [], ctr := 1024, warnings := [] }
          [AnnOp.vol ("lv.blood.volume")]).graph,
        ctr := (runOps cellml_file { graph := [], ctr := 1024, warnings := [] }
          [AnnOp.vol ("lv.blood.volume")]).ctr,
        node := LOCAL ("local-node-1025") } :=
  (dedup_invariant cellml_file 1024 [AnnOp.vol ("lv.blood.volume")]).2
    (LOCAL ("local-node-1025")) (UBERON ("0016514")) (by decide)

/-! ### C10: the underfiltered lookup is harmless in this pipeline -/

lemma bloodBacked_addTriple_not_partOf {g : RDFGraph} {t : Triple}
    (h : BloodBacked g) (hp : t.pred ≠ BQBIOL ("isPartOf")) :
    BloodBacked (addTriple g t) := by
  intro u hu hup
  rcases mem_addTriple.mp hu with hum | rfl
  · exact mem_addTriple_of_mem (h u hum hup)
  · exact absurd hup hp

lemma bloodBacked_dedup {g : RDFGraph} {ctr : Nat} {curi : String}
    (h : BloodBacked g) :
    BloodBacked (create_local_blood_cavity_definition g ctr curi).graph := by
  cases hf : g.find? (matchesPartOf curi) with
  | some row =>
    rw [dedup_of_find?_some hf]
    exact h
  | none =>
    rw [dedup_of_find?_none hf]
    intro u hu hup
    rcases mem_addTriple.mp hu with hum | rfl
    · rcases mem_addTriple.mp hum with humm | rfl
      · exact mem_addTriple_of_mem (mem_addTriple_of_mem (h u humm hup))
      · exact absurd hup (show BQBIOL ("is") ≠ BQBIOL ("isPartOf") from by decide)
    · exact mem_addTriple_of_mem mem_addTriple_self

lemma bloodBacked_vol {st : AnnotState} {model mid : String}
    (h : BloodBacked st.graph) :
    BloodBacked ( create_blood_volume_annotation st model mid).graph := by
  simp only [ create_blood_volume_annotation]
  exact bloodBacked_addTriple_not_partOf
    (bloodBacked_addTriple_not_partOf (bloodBacked_dedup h)
      (show BQBIOL ("isPropertyOf") ≠ BQBIOL ("isPartOf") by decide))
    (show BQBIOL ("isVersionOf") ≠ BQBIOL ("isPartOf") by decide)

lemma bloodBacked_pres {st : AnnotState} {model mid : String}
    (h : BloodBacked st.graph) :
    BloodBacked ( create_blood_pressure_annotation st model mid).graph := by
  simp only [ create_blood_pressure_annotation]
  exact bloodBacked_addTriple_not_partOf
    (bloodBacked_addTriple_not_partOf (bloodBacked_dedup h)
      (show BQBIOL ("isPropertyOf") ≠ BQBIOL ("isPartOf") by decide))
    (show BQBIOL ("isVersionOf") ≠ BQBIOL ("isPartOf") by decide)

lemma bloodBacked_runOps (model : String) (ops : List AnnOp) (st : AnnotState)
    (h : BloodBacked st.graph) : BloodBacked (runOps model st ops).graph := by
  induction ops generalizing st with
  | nil => exact h
  | cons op ops ih =>
    cases op with
    | vol mid => exact ih _ (bloodBacked_vol h)
    | pres mid => exact ih _ (bloodBacked_pres h)

/-- C10: in any run from an empty graph, every subject of an isPartOf
triple also carries an is=blood triple, so the isPartOf-only query of
the deduplicator finds exactly what the stricter query conjoining
is=blood with isPartOf would find. -/
theorem underfiltered_lookup_harmless (model : String) (ctr : Nat) (ops : List AnnOp) :
    (∀ t ∈ (runOps model { graph := [], ctr := ctr, warnings := [] } ops).graph,
      t.pred = BQBIOL ("isPartOf") →
      Triple.mk t.subj (BQBIOL ("is")) BLOOD_URI ∈
        (runOps model { graph := [], ctr := ctr, warnings := [] } ops).graph) ∧
    (∀ loc : String,
      (runOps model { graph := [], ctr := ctr, warnings := [] } ops).graph.find?
          (matchesPartOf loc) =
        (runOps model { graph := [], ctr := ctr, warnings := [] } ops).graph.find?
          (strictMatches
            (runOps model { graph := [], ctr := ctr, warnings := [] } ops).graph loc)) := by
  have hbb : BloodBacked (runOps model { graph := [], ctr := ctr, warnings := [] } ops).graph :=
    bloodBacked_runOps model ops _ (fun t ht => absurd ht (List.not_mem_nil t))
  refine ⟨hbb, fun loc => ?_⟩
  apply find?_congr_mem
  intro t ht
  by_cases hm : matchesPartOf loc t = true
  · have hp : t.pred = BQBIOL ("isPartOf") := by
      have := hm
      simp only [matchesPartOf, Bool.and_eq_true, beq_iff_eq] at this
      exact this.1
    have hb := hbb t ht hp
    simp [strictMatches, hm, hb]
  · have hm' : matchesPartOf loc t = false := by simpa using hm
    simp [strictMatches, hm']

/-- Closed instance of the harmlessness theorem: the minted local for
the left ventricle indeed carries its is=blood triple after the run. -/
theorem underfiltered_lookup_harmless_witness :
    Triple.mk (LOCAL ("local-node-1025")) (BQBIOL ("is")) BLOOD_URI ∈
      (runOps cellml_file { graph := [], ctr := 1024, warnings := [] }
        [AnnOp.vol ("lv.blood.volume")]).graph :=
  (underfiltered_lookup_harmless cellml_file 1024 [AnnOp.vol ("lv.blood.volume")]).1
    (Triple.mk (LOCAL ("local-node-1025")) (BQBIOL ("isPartOf")) (UBERON ("0016514")))
    (by decide) rfl

/-! ### C8: run determinism up to local-identifier renumbering -/

lemma charsToNatAux_append (xs ys : List Char) (acc : Nat) :
    charsToNatAux (xs ++ ys) acc = charsToNatAux ys (charsToNatAux xs acc) := by
  induction xs generalizing acc with
  | nil => rfl
  | cons c cs ih =>
    simp only [List.cons_append, charsToNatAux]
    exact ih _

lemma digitChar_val : ∀ d : Nat, d < 10 → (digitChar d).toNat - 48 = d := by decide

lemma charsToNatAux_natChars :
    ∀ fuel n acc : Nat, n ≤ fuel →
      charsToNatAux (natChars fuel n) acc =
        acc * 10 ^ (natChars fuel n).length + n := by
  intro fuel
  induction fuel with
  | zero =>
    intro n acc h
    have : n = 0 := Nat.le_zero.mp h
    subst this
    simp [natChars, charsToNatAux]
  | succ fuel ih =>
    intro n acc h
    by_cases hn : n = 0
    · subst hn
      simp [natChars, charsToNatAux]
    · have hrec : n / 10 ≤ fuel := by
        have h1 : n / 10 < n := Nat.div_lt_self (Nat.pos_of_ne_zero hn) (by decide)
        omega
      simp only [natChars, if_neg hn]
      rw [charsToNatAux_append]
      simp only [charsToNatAux]
      rw [ih (n / 10) acc hrec]
      rw [digitChar_val (n % 10) (Nat.mod_lt n (by decide))]
      have hlen : (natChars fuel (n / 10) ++ [digitChar (n % 10)]).length
          = (natChars fuel (n / 10)).length + 1 := by simp
      rw [hlen, pow_succ, ← Nat.mul_assoc]
      generalize acc * 10 ^ (natChars fuel (n / 10)).length = X
      omega

lemma parseNat_natToStr (n : Nat) : parseNat (natToStr n) = n := by
  unfold natToStr
  by_cases hn : n = 0
  · subst hn
    decide
  · rw [if_neg hn]
    show charsToNatAux (natChars n n) 0 = n
    rw [charsToNatAux_natChars n n 0 (Nat.le_refl n)]
    simp

lemma natToStr_inj {m n : Nat} (h : natToStr m = natToStr n) : m = n := by
  have h2 := congrArg parseNat h
  rwa [parseNat_natToStr, parseNat_natToStr] at h2

lemma local_localname (y : String) :
    LOCAL ("local-node-" ++ y) =
      "http://omex-library.org/annotations.ttl#local-node-" ++ y := by
  rw [LOCAL, ← String.append_assoc]
  have h : "http://omex-library.org/annotations.ttl#" ++ "local-node-" =
      "http://omex-library.org/annotations.ttl#local-node-" := by decide
  rw [h]

lemma modeluri_norm (x : String) :
    OMEXlib (cellml_file ++ "#" ++ x) =
      "http://omex-library.org/models/cvs-model.cellml#" ++ x := by
  rw [OMEXlib, cellml_file, ← String.append_assoc, ← String.append_assoc]
  have h : "http://omex-library.org/" ++ "models/cvs-model.cellml" ++ "#" =
      "http://omex-library.org/models/cvs-model.cellml#" := by decide
  rw [h]

lemma bqbiol_ne_local (x y : String) : BQBIOL x ≠ LOCAL ("local-node-" ++ y) := by
  rw [local_localname, BQBIOL]
  exact string_append_ne_of_take_ne _ _ _ _ 8 (by decide) (by decide) (by decide)

lemma uberon_ne_local (x y : String) : UBERON x ≠ LOCAL ("local-node-" ++ y) := by
  rw [local_localname, UBERON]
  exact string_append_ne_of_take_ne _ _ _ _ 8 (by decide) (by decide) (by decide)

lemma opb_ne_local (x y : String) : OPB x ≠ LOCAL ("local-node-" ++ y) := by
  rw [local_localname, OPB]
  exact string_append_ne_of_take_ne _ _ _ _ 8 (by decide) (by decide) (by decide)

lemma modeluri_ne_local (x y : String) :
    OMEXlib (cellml_file ++ "#" ++ x) ≠ LOCAL ("local-node-" ++ y) := by
  rw [local_localname, modeluri_norm]
  exact string_append_ne_of_take_ne _ _ _ _ 25 (by decide) (by decide) (by decide)

lemma okStr_ne_local {s : String} (h : OkStr s) (y : String) :
    s ≠ LOCAL ("local-node-" ++ y) := by
  rcases h with ⟨x, rfl⟩ | ⟨x, rfl⟩ | ⟨x, rfl⟩ | ⟨x, rfl⟩
  · exact bqbiol_ne_local x y
  · exact uberon_ne_local x y
  · exact opb_ne_local x y
  · exact modeluri_ne_local x y

lemma local_name_inj {a b : String} (h : LOCAL a = LOCAL b) : a = b :=
  string_append_cancel_left h

lemma conc_inj_good {base : Nat} {n1 n2 : ANode} (h1 : GoodNode n1)
    (h2 : GoodNode n2) (h : conc base n1 = conc base n2) : n1 = n2 := by
  cases n1 with
  | str s1 =>
    cases n2 with
    | str s2 => exact congrArg ANode.str h
    | loc k2 => exact absurd h (okStr_ne_local h1 _)
  | loc k1 =>
    cases n2 with
    | str s2 => exact absurd h.symm (okStr_ne_local h2 _)
    | loc k2 =>
      have h3 : "local-node-" ++ natToStr (base + k1) =
          "local-node-" ++ natToStr (base + k2) := local_name_inj h
      have h4 := natToStr_inj (string_append_cancel_left h3)
      exact congrArg ANode.loc (Nat.add_left_cancel h4)

lemma concT_inj_good {base : Nat} {t u : ATriple} (ht : GoodT t) (hu : GoodT u)
    (h : concT base t = concT base u) : t = u := by
  obtain ⟨t1, t2, t3⟩ := t
  obtain ⟨u1, u2, u3⟩ := u
  simp only [concT, Triple.mk.injEq] at h
  obtain ⟨hts, htp, hto⟩ := ht
  obtain ⟨hus, hup, huo⟩ := hu
  simp only [ATriple.mk.injEq]
  exact ⟨conc_inj_good hts hus h.1, conc_inj_good htp hup h.2.1,
    conc_inj_good hto huo h.2.2⟩

lemma mem_map_concT {base : Nat} {G : List ATriple} {t : ATriple}
    (hG : GoodG G) (ht : GoodT t) :
    concT base t ∈ G.map (concT base) ↔ t ∈ G := by
  constructor
  · intro h
    obtain ⟨u, hu, he⟩ := List.mem_map.mp h
    rwa [← concT_inj_good (hG u hu) ht he]
  · exact List.mem_map_of_mem _

lemma map_absAddTriple {base : Nat} {G : List ATriple} {t : ATriple}
    (hG : GoodG G) (ht : GoodT t) :
    (absAddTriple G t).map (concT base) =
      addTriple (G.map (concT base)) (concT base t) := by
  unfold absAddTriple addTriple
  by_cases hm : t ∈ G
  · rw [if_pos hm, if_pos ((mem_map_concT hG ht).mpr hm)]
  · rw [if_neg hm, if_neg (fun hc => hm ((mem_map_concT hG ht).mp hc))]
    simp

lemma goodG_absAddTriple {G : List ATriple} {t : ATriple}
    (hG : GoodG G) (ht : GoodT t) : GoodG (absAddTriple G t) := by
  intro u hu
  unfold absAddTriple at hu
  by_cases hm : t ∈ G
  · rw [if_pos hm] at hu
    exact hG u hu
  · rw [if_neg hm] at hu
    rcases List.mem_append.mp hu with h | h
    · exact hG u h
    · rw [List.mem_singleton.mp h]
      exact ht

lemma okStr_bqbiol (x : String) : OkStr (BQBIOL x) := Or.inl ⟨x, rfl⟩

lemma okStr_blood : OkStr BLOOD_URI := Or.inr (Or.inl ⟨("0000178"), rfl⟩)

lemma okStr_volume : OkStr VOLUME_URI := Or.inr (Or.inr (Or.inl ⟨("OPB_00154"), rfl⟩))

lemma okStr_pressure : OkStr PRESSURE_URI := Or.inr (Or.inr (Or.inl ⟨("OPB_00509"), rfl⟩))

lemma okStr_modeluri (x : String) : OkStr (OMEXlib (cellml_file ++ "#" ++ x)) :=
  Or.inr (Or.inr (Or.inr ⟨x, rfl⟩))

lemma okStr_map_uberon (c : String) : OkStr (map_to_uberon_cavity c).1 := by
  unfold map_to_uberon_cavity
  cases cavity_map.lookup c with
  | some code => exact Or.inr (Or.inl ⟨code, rfl⟩)
  | none => exact Or.inr (Or.inl ⟨("0001062"), rfl⟩)

lemma matchesPartOf_concT {base : Nat} {curi : String} {t : ATriple}
    (ht : GoodT t) (hcu : OkStr curi) :
    matchesPartOf curi (concT base t) = absMatchesPartOf curi t := by
  obtain ⟨ts, tp, tb⟩ := t
  obtain ⟨hs, hp, ho⟩ := ht
  simp only [matchesPartOf, absMatchesPartOf, concT]
  refine Bool.eq_iff_iff.mpr ?_
  cases tp with
  | str p =>
    cases tb with
    | str o =>
      simp [conc]
    | loc k =>
      have h2 : LOCAL ("local-node-" ++ natToStr (base + k)) ≠ curi :=
        fun he => okStr_ne_local hcu _ he.symm
      simp [conc, h2]
  | loc k =>
    have h1 : LOCAL ("local-node-" ++ natToStr (base + k)) ≠ BQBIOL ("isPartOf") :=
      fun he => bqbiol_ne_local ("isPartOf") _ he.symm
    simp [conc, h1]

lemma find?_map_comm {base : Nat} {G : List ATriple} {curi : String}
    (hG : GoodG G) (hcu : OkStr curi) :
    (G.map (concT base)).find? (matchesPartOf curi) =
      Option.map (concT base) (G.find? (absMatchesPartOf curi)) := by
  rw [List.find?_map]
  have h : G.find? (matchesPartOf curi ∘ concT base) =
      G.find? (absMatchesPartOf curi) :=
    find?_congr_mem fun t ht => matchesPartOf_concT (hG t ht) hcu
  rw [h]

lemma absDedup_comm (G : List ATriple) (k base : Nat) (curi : String)
    (hG : GoodG G) (hcu : OkStr curi) :
    create_local_blood_cavity_definition (G.map (concT base)) (base + k) curi =
      { graph := (absDedup G k curi).1.map (concT base),
        ctr := base + (absDedup G k curi).2.1,
        node := conc base (absDedup G k curi).2.2 } ∧
    GoodG (absDedup G k curi).1 ∧ GoodNode (absDedup G k curi).2.2 := by
  cases hf : G.find? (absMatchesPartOf curi) with
  | some row =>
    have hcf : (G.map (concT base)).find? (matchesPartOf curi) =
        some (concT base row) := by
      rw [find?_map_comm hG hcu, hf]
      rfl
    rw [dedup_of_find?_some hcf]
    simp only [absDedup, hf]
    exact ⟨rfl, hG, (hG row (List.mem_of_find?_eq_some hf)).1⟩
  | none =>
    have hcf : (G.map (concT base)).find? (matchesPartOf curi) = none := by
      rw [find?_map_comm hG hcu, hf]
      rfl
    rw [dedup_of_find?_none hcf]
    simp only [absDedup, hf]
    have htIs : GoodT (ATriple.mk (ANode.loc (k + 1))
        (ANode.str (BQBIOL ("is"))) (ANode.str BLOOD_URI)) :=
      ⟨trivial, okStr_bqbiol _, okStr_blood⟩
    have hG1 : GoodG (absAddTriple G (ATriple.mk (ANode.loc (k + 1))
        (ANode.str (BQBIOL ("is"))) (ANode.str BLOOD_URI))) :=
      goodG_absAddTriple hG htIs
    have htPart : GoodT (ATriple.mk (ANode.loc (k + 1))
        (ANode.str (BQBIOL ("isPartOf"))) (ANode.str curi)) :=
      ⟨trivial, okStr_bqbiol _, hcu⟩
    refine ⟨?_, goodG_absAddTriple hG1 htPart, trivial⟩
    rw [map_absAddTriple hG1 htPart, map_absAddTriple hG htIs]
    have hadd : base + k + 1 = base + (k + 1) := Nat.add_assoc base k 1
    simp only [concT, conc, hadd]

lemma absVol_comm (G : List ATriple) (k base : Nat) (ws : List String)
    (mid : String) (hG : GoodG G) :
    create_blood_volume_annotation
        { graph := G.map (concT base), ctr := base + k, warnings := ws }
        cellml_file mid =
      { graph := ((absVol ⟨G, k⟩ mid).graph).map (concT base),
        ctr := base + (absVol ⟨G, k⟩ mid).minted,
        warnings := ws ++ (map_to_uberon_cavity (split_dot_head mid)).2 } ∧
    GoodG (absVol ⟨G, k⟩ mid).graph := by
  obtain ⟨hd, hdG, hdn⟩ := absDedup_comm G k base
    (map_to_uberon_cavity (split_dot_head mid)).1 hG (okStr_map_uberon _)
  have htProp : GoodT (ATriple.mk (ANode.str (OMEXlib (cellml_file ++ "#" ++ mid)))
      (ANode.str (BQBIOL ("isPropertyOf")))
      (absDedup G k (map_to_uberon_cavity (split_dot_head mid)).1).2.2) :=
    ⟨okStr_modeluri mid, okStr_bqbiol _, hdn⟩
  have htVer : GoodT (ATriple.mk (ANode.str (OMEXlib (cellml_file ++ "#" ++ mid)))
      (ANode.str (BQBIOL ("isVersionOf"))) (ANode.str VOLUME_URI)) :=
    ⟨okStr_modeluri mid, okStr_bqbiol _, okStr_volume⟩
  constructor
  · simp only [ create_blood_volume_annotation, absVol]
    rw [hd]
    rw [map_absAddTriple (goodG_absAddTriple hdG htProp) htVer,
        map_absAddTriple hdG htProp]
    simp only [concT, conc]
  · simp only [absVol]
    exact goodG_absAddTriple (goodG_absAddTriple hdG htProp) htVer

lemma absPres_comm (G : List ATriple) (k base : Nat) (ws : List String)
    (mid : String) (hG : GoodG G) :
    create_blood_pressure_annotation
        { graph := G.map (concT base), ctr := base + k, warnings := ws }
        cellml_file mid =
      { graph := ((absPres ⟨G, k⟩ mid).graph).map (concT base),
        ctr := base + (absPres ⟨G, k⟩ mid).minted,
        warnings := ws ++ (map_to_uberon_cavity (split_dot_head mid)).2 } ∧
    GoodG (absPres ⟨G, k⟩ mid).graph := by
  obtain ⟨hd, hdG, hdn⟩ := absDedup_comm G k base
    (map_to_uberon_cavity (split_dot_head mid)).1 hG (okStr_map_uberon _)
  have htProp : GoodT (ATriple.mk (ANode.str (OMEXlib (cellml_file ++ "#" ++ mid)))
      (ANode.str (BQBIOL ("isPropertyOf")))
      (absDedup G k (map_to_uberon_cavity (split_dot_head mid)).1).2.2) :=
    ⟨okStr_modeluri mid, okStr_bqbiol _, hdn⟩
  have htVer : GoodT (ATriple.mk (ANode.str (OMEXlib (cellml_file ++ "#" ++ mid)))
      (ANode.str (BQBIOL ("isVersionOf"))) (ANode.str PRESSURE_URI)) :=
    ⟨okStr_modeluri mid, okStr_bqbiol _, okStr_pressure⟩
  constructor
  · simp only [ create_blood_pressure_annotation, absPres]
    rw [hd]
    rw [map_absAddTriple (goodG_absAddTriple hdG htProp) htVer,
        map_absAddTriple hdG htProp]
    simp only [concT, conc]
  · simp only [absPres]
    exact goodG_absAddTriple (goodG_absAddTriple hdG htProp) htVer

lemma vol_fold_comm (mids : List String) :
    ∀ (G : List ATriple) (k base : Nat) (st : AnnotState),
      st.graph = G.map (concT base) → st.ctr = base + k → GoodG G →
      (mids.foldl (fun s v => create_blood_volume_annotation s cellml_file v)
          st).graph = ((mids.foldl absVol ⟨G, k⟩).graph).map (concT base) ∧
      (mids.foldl (fun s v => create_blood_volume_annotation s cellml_file v)
          st).ctr = base + (mids.foldl absVol ⟨G, k⟩).minted ∧
      GoodG (mids.foldl absVol ⟨G, k⟩).graph := by
  induction mids with
  | nil =>
    intro G k base st h1 h2 hG
    exact ⟨h1, h2, hG⟩
  | cons m ms ih =>
    intro G k base st h1 h2 hG
    simp only [List.foldl]
    have hst : create_blood_volume_annotation st cellml_file m =
        create_blood_volume_annotation
          { graph := G.map (concT base), ctr := base + k, warnings := st.warnings }
          cellml_file m := by
      rw [← h1, ← h2]
    obtain ⟨ha, hgood⟩ := absVol_comm G k base st.warnings m hG
    exact ih (absVol ⟨G, k⟩ m).graph (absVol ⟨G, k⟩ m).minted base
      ( create_blood_volume_annotation st cellml_file m)
      (by rw [hst, ha]) (by rw [hst, ha]) hgood

lemma pres_fold_comm (mids : List String) :
    ∀ (G : List ATriple) (k base : Nat) (st : AnnotState),
      st.graph = G.map (concT base) → st.ctr = base + k → GoodG G →
      (mids.foldl (fun s v => create_blood_pressure_annotation s cellml_file v)
          st).graph = ((mids.foldl absPres ⟨G, k⟩).graph).map (concT base) ∧
      (mids.foldl (fun s v => create_blood_pressure_annotation s cellml_file v)
          st).ctr = base + (mids.foldl absPres ⟨G, k⟩).minted ∧
      GoodG (mids.foldl absPres ⟨G, k⟩).graph := by
  induction mids with
  | nil =>
    intro G k base st h1 h2 hG
    exact ⟨h1, h2, hG⟩
  | cons m ms ih =>
    intro G k base st h1 h2 hG
    simp only [List.foldl]
    have hst : create_blood_pressure_annotation st cellml_file m =
        create_blood_pressure_annotation
          { graph := G.map (concT base), ctr := base + k, warnings := st.warnings }
          cellml_file m := by
      rw [← h1, ← h2]
    obtain ⟨ha, hgood⟩ := absPres_comm G k base st.warnings m hG
    exact ih (absPres ⟨G, k⟩ m).graph (absPres ⟨G, k⟩ m).minted base
      ( create_blood_pressure_annotation st cellml_file m)
      (by rw [hst, ha]) (by rw [hst, ha]) hgood

lemma run_comm (attributes : List String) (c : Nat) :
    (run_annotations attributes c).graph = ((absRun attributes).graph).map (concT c) := by
  simp only [run_annotations, absRun]
  obtain ⟨h1g, h1c, h1G⟩ := vol_fold_comm (get_model_ids attributes).volume_ids []
    0 c { graph := [], ctr := c, warnings := [] } rfl (Nat.add_zero c).symm
    (fun t ht => absurd ht (List.not_mem_nil t))
  obtain ⟨h2g, h2c, h2G⟩ := pres_fold_comm (get_model_ids attributes).pressure_ids
    ((get_model_ids attributes).volume_ids.foldl absVol ⟨[], 0⟩).graph
    ((get_model_ids attributes).volume_ids.foldl absVol ⟨[], 0⟩).minted c
    ((get_model_ids attributes).volume_ids.foldl
      (fun s v => create_blood_volume_annotation s cellml_file v)
      { graph := [], ctr := c, warnings := [] })
    h1g h1c h1G
  exact h2g

/-- C8: two runs of the pipeline on the same extracted ID list, with
any two values of the process-wide counter, yield triple sets that are
the two instantiations of one common abstract triple list, where each
abstract node is either a fixed URI rendered identically in both runs
or the k-th minted local entity rendered as the local node numbered
counter plus k: identical graphs up to consistent renumbering of local
identifiers. -/
theorem run_determinism (attributes : List String) (c1 c2 : Nat) :
    ∃ T : List ATriple,
      (run_annotations attributes c1).graph = T.map (concT c1) ∧
      (run_annotations attributes c2).graph = T.map (concT c2) :=
  ⟨(absRun attributes).graph, run_comm attributes c1, run_comm attributes c2⟩

end CreateAnnotations
